import Mathlib

/-!
Verification of the US Holiday Travel analysis pipeline (`analysis.py`).

The pipeline's numeric code works on pandas float64/int64 columns; here
floats are modelled as `ℚ` and ints as `Int`.  A pandas cell holding a
non-finite value (NaN from `0/0` or from a failed left-join match) is
modelled as `none : Option _`; a finite value `v` as `some v`.  (`±inf`,
which only arises from dividing a nonzero float by zero, is conflated with
NaN by this modelling; no statement below touches that case.)

A CSV input is modelled as a list of typed records (pandas `read_csv` with
the required columns already present and numeric, which is the only case
the claims are about); the NOAA fixed-width file is modelled as a list of
lines, each line being the list of its whitespace-separated tokens (the
result of Python's `line.split()`).

Python runtime exceptions reachable in the modelled code paths are made
explicit as the `Fault` type:
  * `indexError` — `code[5]` on a string of length ≤ 5 (IndexError);
  * `valueError` — `int(...)` / `float(...)` on a non-numeric string
    (ValueError);
  * `keyError`   — column access on the column-less frame
    `pd.DataFrame([])` (KeyError), which happens when every input line
    was skipped.
-/

deriving instance DecidableEq for Except

namespace HolidayTravel

inductive Fault where
  | indexError
  | valueError
  | keyError
deriving DecidableEq

/-- Numeric value of a list of decimal digit characters (most significant
first). -/
def digitsVal (cs : List Char) : Nat :=
  cs.foldl (fun a c => 10 * a + (c.toNat - 48)) 0

/-- Python `int(s)` restricted to plain digit strings, the only shape the
10-character NOAA codes can contain.  `int("")` and any non-digit input
raise ValueError, modelled as `none`. -/
def pyInt (s : String) : Option Int :=
  if s.length ≠ 0 ∧ s.data.all (fun c => c.isDigit) then
    some (Int.ofNat (digitsVal s.data))
  else none

/-- Split a character list at every '.', like Python's `str.split('.')`:
always returns one more segment than there are dots. -/
def splitDot (cs : List Char) : List (List Char) :=
  match cs with
  | [] => [[]]
  | c :: rest =>
    let r := splitDot rest
    if c = '.' then [] :: r
    else (c :: r.headD []) :: r.tail

/-- Unsigned decimal literal: digits with at most one dot, not all parts
empty. -/
def pyFloatCore (t : List Char) : Option ℚ :=
  match splitDot t with
  | [ip] =>
      if ip ≠ [] ∧ ip.all (fun c => c.isDigit) then
        some ((digitsVal ip : ℚ))
      else none
  | [ip, fp] =>
      if (ip ≠ [] ∨ fp ≠ []) ∧ ip.all (fun c => c.isDigit)
          ∧ fp.all (fun c => c.isDigit) then
        some ((digitsVal ip : ℚ) + (digitsVal fp : ℚ) / ((10 : ℚ) ^ fp.length))
      else none
  | _ => none

/-- Python `float(s)` on plain decimal literals with an optional leading
minus sign (the shape of every NOAA temperature token).  A failure
(ValueError) is `none`. -/
def pyFloat (s : String) : Option ℚ :=
  match s.data with
  | '-' :: cs => (pyFloatCore cs).map (fun q => -q)
  | _ => pyFloatCore s.data

/-- Python string indexing `s[i]`: `none` models the IndexError raised
when `i` is out of range. -/
def strGet (s : String) (i : Nat) : Option Char := s.data.get? i

/-- One parsed line of the NOAA file (`data_rows` entry).  The source also
stores the months jan–oct, but nothing downstream ever reads them, so only
`nov` and `dec` are kept (all 12 tokens are still parsed, and a parse
failure on any of them is fatal, exactly as in the source). -/
structure RawRow where
  code : String
  state_fips : String
  division : String
  year : Int
  nov : ℚ
  dec : ℚ
deriving DecidableEq

/-- Parse the 12 monthly temperature tokens `parts[1:13]`;
`float(x)` failing on any of them raises ValueError. -/
def parseTemps (tokens : List String) : Except Fault (List ℚ) :=
  match tokens.mapM pyFloat with
  | none => .error .valueError
  | some qs => .ok qs

/-- One iteration of the read loop in `load_noaa_temperature_data`
(analysis.py lines 67–87): lines with fewer than 13 tokens are skipped
(`.ok none`); otherwise the first token is sliced as `SSSDDEYYYY`.
`code[:3]` and `code[3:5]` are Python slices and never fault;
`element = code[5]` is a plain index and raises IndexError on a token of
length ≤ 5; `int(code[6:10])` raises ValueError on a non-numeric slice. -/
def parseLine (parts : List String) : Except Fault (Option RawRow) :=
  if 13 ≤ parts.length then
    let code := parts.headD ""
    match strGet code 5 with
    | none => .error .indexError
    | some _ =>
      match pyInt ((code.drop 6).take 4) with
      | none => .error .valueError
      | some year =>
        match parseTemps ((parts.drop 1).take 12) with
        | .error e => .error e
        | .ok temps =>
          .ok (some { code := code, state_fips := code.take 3,
                      division := (code.drop 3).take 2, year := year,
                      nov := temps.getD 10 0, dec := temps.getD 11 0 })
  else .ok none

/-- The whole read loop: the first faulting line aborts the run. -/
def parseFile (lines : List (List String)) : Except Fault (List RawRow) :=
  match lines with
  | [] => .ok []
  | l :: ls =>
    match parseLine l with
    | .error e => .error e
    | .ok none => parseFile ls
    | .ok (some r) =>
      match parseFile ls with
      | .error e => .error e
      | .ok rs => .ok (r :: rs)

/-- `year in range(2020, 2025)` — the configured 5-year window
(current_year = 2024). -/
def inWindow (y : Int) : Bool := 2020 ≤ y && y ≤ 2024

/-- Row matches `division == '00'` and the year window. -/
def isStatewide (r : RawRow) : Bool := r.division == "00" && inWindow r.year

/-- Row matches `division == '01'` and the year window (fallback filter). -/
def isDivision01 (r : RawRow) : Bool := r.division == "01" && inWindow r.year

/-- Filtering step of `load_noaa_temperature_data` (lines 89–103).
When `data_rows` is empty, `pd.DataFrame([])` has no columns at all and
`df['division']` raises KeyError — modelled by the `.error .keyError`
branch.  Otherwise keep the statewide (division 00) rows in the window,
falling back to division 01 rows over the same window when no statewide
row exists anywhere in the dataset. -/
def selectRows (rows : List RawRow) : Except Fault (List RawRow) :=
  if rows.isEmpty then .error .keyError
  else
    let statewide := rows.filter isStatewide
    if statewide.isEmpty then .ok (rows.filter isDivision01)
    else .ok statewide

/-- One row of the per-state aggregate `dec_avg` before FIPS resolution. -/
structure AggRow where
  state_fips : String
  dec : ℚ
  nov : ℚ
deriving DecidableEq

/-- The rows of one state's group among the selected temperature rows. -/
def aggGroup (rows : List RawRow) (f : String) : List RawRow :=
  rows.filter (fun r => r.state_fips == f)

/-- One state's aggregate: arithmetic mean of the group's December and
November values. -/
def aggRecord (rows : List RawRow) (f : String) : AggRow :=
  { state_fips := f,
    dec := ((aggGroup rows f).map (fun r => r.dec)).sum / ((aggGroup rows f).length : ℚ),
    nov := ((aggGroup rows f).map (fun r => r.nov)).sum / ((aggGroup rows f).length : ℚ) }

/-- `statewide.groupby('state_fips').agg({'dec': 'mean', 'nov': 'mean'})`
(lines 106–109).  Groups are keyed by the distinct `state_fips` values;
pandas emits them sorted, we emit them in last-occurrence order — no
claim depends on row order.  Each group is nonempty, so the mean's
denominator is never zero. -/
def aggregate (rows : List RawRow) : List AggRow :=
  ((rows.map (fun r => r.state_fips)).dedup).map (aggRecord rows)

/-- The STATE_FIPS constant of analysis.py (lines 24–42): 2-digit key,
2-letter code, full name. -/
def STATE_FIPS : List (String × String × String) := [
  ("01", "AL", "Alabama"), ("02", "AZ", "Arizona"), ("03", "AR", "Arkansas"),
  ("04", "CA", "California"), ("05", "CO", "Colorado"), ("06", "CT", "Connecticut"),
  ("07", "DE", "Delaware"), ("08", "FL", "Florida"), ("09", "GA", "Georgia"),
  ("10", "ID", "Idaho"), ("11", "IL", "Illinois"), ("12", "IN", "Indiana"),
  ("13", "IA", "Iowa"), ("14", "KS", "Kansas"), ("15", "KY", "Kentucky"),
  ("16", "LA", "Louisiana"), ("17", "ME", "Maine"), ("18", "MD", "Maryland"),
  ("19", "MA", "Massachusetts"), ("20", "MI", "Michigan"), ("21", "MN", "Minnesota"),
  ("22", "MS", "Mississippi"), ("23", "MO", "Missouri"), ("24", "MT", "Montana"),
  ("25", "NE", "Nebraska"), ("26", "NV", "Nevada"), ("27", "NH", "New Hampshire"),
  ("28", "NJ", "New Jersey"), ("29", "NM", "New Mexico"), ("30", "NY", "New York"),
  ("31", "NC", "North Carolina"), ("32", "ND", "North Dakota"), ("33", "OH", "Ohio"),
  ("34", "OK", "Oklahoma"), ("35", "OR", "Oregon"), ("36", "PA", "Pennsylvania"),
  ("37", "RI", "Rhode Island"), ("38", "SC", "South Carolina"), ("39", "SD", "South Dakota"),
  ("40", "TN", "Tennessee"), ("41", "TX", "Texas"), ("42", "UT", "Utah"),
  ("43", "VT", "Vermont"), ("44", "VA", "Virginia"), ("45", "WA", "Washington"),
  ("46", "WV", "West Virginia"), ("47", "WI", "Wisconsin"), ("48", "WY", "Wyoming"),
  ("50", "AK", "Alaska"), ("51", "HI", "Hawaii")]

/-- `s.lstrip('0').zfill(2)` (line 113): strip leading zeros, left-pad
with zeros back to width 2. -/
def fips2Of (fips3 : String) : String :=
  let t := String.mk (fips3.data.dropWhile (fun c => c = '0'))
  String.mk (List.replicate (2 - t.length) '0' ++ t.data)

/-- One row of the temperature loader's output. -/
structure StateTemp where
  state_code : String
  state_name : String
  avg_dec_temperature : ℚ
  avg_nov_temperature : ℚ
deriving DecidableEq

/-- FIPS resolution (lines 113–118): map each aggregate's 2-digit FIPS
through STATE_FIPS (a dict with distinct keys, so `find?` over the
association list is the same lookup); rows whose key is absent get
`(None, None)` and are dropped by the `notna` filter — together a
`filterMap`. -/
def resolve (aggs : List AggRow) : List StateTemp :=
  aggs.filterMap (fun a =>
    match STATE_FIPS.find? (fun e => e.1 == fips2Of a.state_fips) with
    | some e => some { state_code := e.2.1, state_name := e.2.2,
                       avg_dec_temperature := a.dec, avg_nov_temperature := a.nov }
    | none => none)

/-- The synthetic Hawaii record (lines 123–128). -/
def hawaiiRow : StateTemp :=
  { state_code := "HI", state_name := "Hawaii",
    avg_dec_temperature := 73, avg_nov_temperature := 75 }

/-- Hawaii backfill (lines 122–129): append the synthetic record exactly
when no row's state_code is 'HI'. -/
def addHawaii (sts : List StateTemp) : List StateTemp :=
  if sts.any (fun r => r.state_code == "HI") then sts else sts ++ [hawaiiRow]

/-- `load_noaa_temperature_data` (lines 48–133) end to end on the
tokenized lines of the input file. -/
def load_noaa_temperature_data (lines : List (List String)) :
    Except Fault (List StateTemp) :=
  match parseFile lines with
  | .error e => .error e
  | .ok rows =>
    match selectRows rows with
    | .error e => .error e
    | .ok sel => .ok (addHawaii (resolve (aggregate sel)))

/-- One row of the passenger CSV (required columns only; extra columns
are ignored by the source). -/
structure PassIn where
  state_code : String
  nov_passengers : Int
  dec_passengers : Int
deriving DecidableEq

/-- One row of the passenger loader's output. -/
structure PassOut where
  state_code : String
  holiday_travel_volume : Int
  nov_passengers : Int
  dec_passengers : Int
deriving DecidableEq

/-- The rows of one state's group in the passenger CSV. -/
def passGroup (rows : List PassIn) (s : String) : List PassIn :=
  rows.filter (fun r => r.state_code == s)

/-- One state's passenger aggregate: sums of the group's columns and the
derived volume. -/
def passRecord (rows : List PassIn) (s : String) : PassOut :=
  { state_code := s,
    holiday_travel_volume := ((passGroup rows s).map (fun r => r.nov_passengers)).sum
      + ((passGroup rows s).map (fun r => r.dec_passengers)).sum,
    nov_passengers := ((passGroup rows s).map (fun r => r.nov_passengers)).sum,
    dec_passengers := ((passGroup rows s).map (fun r => r.dec_passengers)).sum }

/-- `load_airport_passengers` (lines 136–152): group by state_code, sum
`nov_passengers` and `dec_passengers`, and derive
`holiday_travel_volume` as their sum. -/
def load_airport_passengers (rows : List PassIn) : List PassOut :=
  ((rows.map (fun r => r.state_code)).dedup).map (passRecord rows)

/-- One row of the delay CSV. -/
structure DelayIn where
  state_code : String
  delay_pct : ℚ
  avg_delay_minutes : ℚ
  total_flights : Int
  delayed_flights : Int
  cancelled_flights : Int
deriving DecidableEq

/-- One row of the delay loader's output.  The two averages are `Option`
because the source divides without guarding the denominator (lines
173–174): pandas produces NaN (modelled `none`) when a state's summed
denominator is zero, and a finite quotient (`some`) otherwise. -/
structure DelayOut where
  state_code : String
  avg_delay_pct : Option ℚ
  avg_delay_minutes : Option ℚ
  total_flights : Int
  delayed_flights : Int
  cancelled_flights : Int
deriving DecidableEq

/-- The rows of one state's group in the delay CSV. -/
def delayGroup (rows : List DelayIn) (s : String) : List DelayIn :=
  rows.filter (fun r => r.state_code == s)

/-- Sum of `total_flights` over one state's group. -/
def tfSum (rows : List DelayIn) (s : String) : Int :=
  ((delayGroup rows s).map (fun r => r.total_flights)).sum

/-- Sum of `delayed_flights` over one state's group. -/
def dlSum (rows : List DelayIn) (s : String) : Int :=
  ((delayGroup rows s).map (fun r => r.delayed_flights)).sum

/-- Sum of the per-row `weighted_delay = delay_pct * total_flights`
column over one state's group. -/
def wdSum (rows : List DelayIn) (s : String) : ℚ :=
  ((delayGroup rows s).map (fun r => r.delay_pct * (r.total_flights : ℚ))).sum

/-- Sum of the per-row `weighted_minutes = avg_delay_minutes *
delayed_flights` column over one state's group. -/
def wmSum (rows : List DelayIn) (s : String) : ℚ :=
  ((delayGroup rows s).map (fun r => r.avg_delay_minutes * (r.delayed_flights : ℚ))).sum

/-- One state's delay aggregate, with the source's unguarded divisions:
a zero denominator yields pandas NaN, modelled `none`. -/
def delayRecord (rows : List DelayIn) (s : String) : DelayOut :=
  { state_code := s,
    avg_delay_pct :=
      if tfSum rows s = 0 then none else some (wdSum rows s / (tfSum rows s : ℚ)),
    avg_delay_minutes :=
      if dlSum rows s = 0 then none else some (wmSum rows s / (dlSum rows s : ℚ)),
    total_flights := tfSum rows s, delayed_flights := dlSum rows s,
    cancelled_flights := ((delayGroup rows s).map (fun r => r.cancelled_flights)).sum }

/-- `load_flight_delays` (lines 155–178): per-row weighted columns
`weighted_delay = delay_pct * total_flights` and
`weighted_minutes = avg_delay_minutes * delayed_flights`; group by
state_code summing the five columns; final unguarded divisions. -/
def load_flight_delays (rows : List DelayIn) : List DelayOut :=
  ((rows.map (fun r => r.state_code)).dedup).map (delayRecord rows)

/-- Intermediate frame after `temp_df.merge(passengers_df, how='left')`
(line 190): temperature columns plus the passenger columns, which are
NaN (`none`) on a left row with no match. -/
structure TPRow where
  state_code : String
  state_name : String
  avg_dec_temperature : ℚ
  avg_nov_temperature : ℚ
  holiday_travel_volume : Option Int
  nov_passengers : Option Int
  dec_passengers : Option Int
deriving DecidableEq

/-- One row of the combiner's output frame. -/
structure CombinedRow where
  state_code : String
  state_name : String
  avg_dec_temperature : ℚ
  avg_nov_temperature : ℚ
  holiday_travel_volume : Option Int
  nov_passengers : Option Int
  dec_passengers : Option Int
  avg_delay_pct : Option ℚ
  avg_delay_minutes : Option ℚ
  total_flights : Option Int
  delayed_flights : Option Int
  cancelled_flights : Option Int
deriving DecidableEq

/-- Pandas left merge on `state_code`: each left row pairs with every
matching right row, or survives alone with NaN right columns when there
is no match.  (Loader outputs, built by groupby, have one row per key, so
each left row yields exactly one output row there.) -/
def mergePassengers (t : List StateTemp) (p : List PassOut) : List TPRow :=
  t.flatMap (fun tr =>
    let ms := p.filter (fun pr => pr.state_code == tr.state_code)
    if ms.isEmpty then
      [{ state_code := tr.state_code, state_name := tr.state_name,
         avg_dec_temperature := tr.avg_dec_temperature,
         avg_nov_temperature := tr.avg_nov_temperature,
         holiday_travel_volume := none, nov_passengers := none,
         dec_passengers := none }]
    else ms.map (fun pr =>
      { state_code := tr.state_code, state_name := tr.state_name,
        avg_dec_temperature := tr.avg_dec_temperature,
        avg_nov_temperature := tr.avg_nov_temperature,
        holiday_travel_volume := some pr.holiday_travel_volume,
        nov_passengers := some pr.nov_passengers,
        dec_passengers := some pr.dec_passengers }))

/-- Second left merge (line 193), bringing in the delay columns.  A
matched row copies the delay loader's cells — cells that are themselves
NaN (`none`) when the loader's division was degenerate; an unmatched row
gets NaN in every delay column. -/
def mergeDelays (t : List TPRow) (d : List DelayOut) : List CombinedRow :=
  t.flatMap (fun tr =>
    let ms := d.filter (fun dr => dr.state_code == tr.state_code)
    if ms.isEmpty then
      [{ state_code := tr.state_code, state_name := tr.state_name,
         avg_dec_temperature := tr.avg_dec_temperature,
         avg_nov_temperature := tr.avg_nov_temperature,
         holiday_travel_volume := tr.holiday_travel_volume,
         nov_passengers := tr.nov_passengers,
         dec_passengers := tr.dec_passengers,
         avg_delay_pct := none, avg_delay_minutes := none,
         total_flights := none, delayed_flights := none,
         cancelled_flights := none }]
    else ms.map (fun dr =>
      { state_code := tr.state_code, state_name := tr.state_name,
        avg_dec_temperature := tr.avg_dec_temperature,
        avg_nov_temperature := tr.avg_nov_temperature,
        holiday_travel_volume := tr.holiday_travel_volume,
        nov_passengers := tr.nov_passengers,
        dec_passengers := tr.dec_passengers,
        avg_delay_pct := dr.avg_delay_pct,
        avg_delay_minutes := dr.avg_delay_minutes,
        total_flights := some dr.total_flights,
        delayed_flights := some dr.delayed_flights,
        cancelled_flights := some dr.cancelled_flights }))

/-- `fillna(0)` on exactly the two columns the source fills (lines
196–197): `holiday_travel_volume` and `avg_delay_pct`.  All other merged
columns keep their NaN. -/
def fillDefaults (rows : List CombinedRow) : List CombinedRow :=
  rows.map (fun r =>
    { r with holiday_travel_volume := some (r.holiday_travel_volume.getD 0),
             avg_delay_pct := some (r.avg_delay_pct.getD 0) })

/-- `combine_datasets` (lines 181–200), same argument order as the
source. -/
def combine_datasets (passengers : List PassOut) (delays : List DelayOut)
    (temp : List StateTemp) : List CombinedRow :=
  fillDefaults (mergeDelays (mergePassengers temp passengers) delays)

/-! ### Helper lemmas -/

/-- `find?` with an equality-with-`s` test returns `s` itself whenever
`s` is in the list. -/
theorem find?_beq_self {s : String} {l : List String} (h : s ∈ l) :
    l.find? (fun x => x == s) = some s := by
  induction l with
  | nil => simp at h
  | cons a t ih =>
    by_cases hb : (a == s) = true
    · have ha : a = s := eq_of_beq hb
      subst ha
      simp
    · rw [@List.find?_cons_of_neg _ (fun x => x == s) a t hb]
      rcases List.mem_cons.mp h with h1 | h2
      · subst h1; simp at hb
      · exact ih h2

/-- Looking a key up in a list of keyed records built by mapping a
record-builder over a key list finds the record built from that key. -/
theorem find?_key_map {α : Type} (key : α → String) (mkr : String → α)
    (hk : ∀ s, key (mkr s) = s) (ks : List String) (s : String) (hs : s ∈ ks) :
    (ks.map mkr).find? (fun x => key x == s) = some (mkr s) := by
  rw [List.find?_map]
  have hcomp : ((fun x => key x == s) ∘ mkr) = (fun k => k == s) := by
    funext k
    simp [Function.comp, hk]
  rw [hcomp, find?_beq_self hs]
  rfl

/-- The delay loader's output row for a state present in the input is its
`delayRecord`. -/
theorem load_flight_delays_find (rows : List DelayIn) (s : String)
    (hs : s ∈ rows.map (fun r => r.state_code)) :
    (load_flight_delays rows).find? (fun r => r.state_code == s)
      = some (delayRecord rows s) :=
  find?_key_map (fun r => r.state_code) (delayRecord rows) (fun _ => rfl) _ s
    (List.mem_dedup.mpr hs)

/-- A nonempty list has `isEmpty = false`. -/
theorem isEmpty_false_of_ne_nil {α : Type} {l : List α} (h : l ≠ []) :
    l.isEmpty = false := by
  cases l with
  | nil => exact absurd rfl h
  | cons a t => rfl

/-- A line with fewer than 13 tokens is skipped without any fault. -/
theorem parseLine_short {l : List String} (h : l.length < 13) :
    parseLine l = .ok none := by
  unfold parseLine
  rw [if_neg (by omega)]

/-- A line with at least 13 tokens whose first token has at most 5
characters faults at `code[5]` with IndexError. -/
theorem parseLine_short_token {l : List String} (h13 : 13 ≤ l.length)
    (hshort : (l.headD "").length < 6) :
    parseLine l = .error .indexError := by
  have hget : strGet (l.headD "") 5 = none := by
    unfold strGet
    rw [List.get?_eq_none]
    have hd : (l.headD "").data.length = (l.headD "").length := rfl
    omega
  unfold parseLine
  rw [if_pos h13]
  simp only [hget]

/-- Selection takes the statewide branch when a statewide row exists. -/
theorem selectRows_eq_statewide {rows : List RawRow} (hne : rows ≠ [])
    (h00 : rows.filter isStatewide ≠ []) :
    selectRows rows = .ok (rows.filter isStatewide) := by
  simp only [selectRows, isEmpty_false_of_ne_nil hne,
    isEmpty_false_of_ne_nil h00, Bool.false_eq_true, if_false]

/-- Selection falls back to division 01 when no statewide row exists. -/
theorem selectRows_eq_fallback {rows : List RawRow} (hne : rows ≠ [])
    (h00 : rows.filter isStatewide = []) :
    selectRows rows = .ok (rows.filter isDivision01) := by
  simp only [selectRows, isEmpty_false_of_ne_nil hne, h00, List.isEmpty_nil,
    Bool.false_eq_true, if_false, if_true]

/-- The loader is the Hawaii-backfilled, resolved aggregate of whatever
the selection step produced. -/
theorem load_noaa_eq (lines : List (List String)) (rows sel : List RawRow)
    (hp : parseFile lines = .ok rows) (hs : selectRows rows = .ok sel) :
    load_noaa_temperature_data lines = .ok (addHawaii (resolve (aggregate sel))) := by
  simp only [load_noaa_temperature_data, hp, hs]

/-- Membership survives the Hawaii backfill. -/
theorem mem_addHawaii {x : StateTemp} {l : List StateTemp} (h : x ∈ l) :
    x ∈ addHawaii l := by
  unfold addHawaii
  split
  · exact h
  · exact List.mem_append_left _ h

/-! ### Claim theorems -/

/-- C1: for every delay CSV input and every state present in it, the
loader's `avg_delay_pct` is the flight-count-weighted average
`sum(delay_pct * total_flights) / sum(total_flights)` and its
`avg_delay_minutes` is `sum(avg_delay_minutes * delayed_flights) /
sum(delayed_flights)`, summed over all rows of that state (whenever the
respective denominator is nonzero, so that the quotient is a defined
number). -/
theorem delay_loader_weighted_average (rows : List DelayIn) (s : String)
    (hs : s ∈ rows.map (fun r => r.state_code)) :
    (tfSum rows s ≠ 0 →
      ((load_flight_delays rows).find? (fun r => r.state_code == s)).map
          (fun r => r.avg_delay_pct)
        = some (some (wdSum rows s / (tfSum rows s : ℚ))))
    ∧ (dlSum rows s ≠ 0 →
      ((load_flight_delays rows).find? (fun r => r.state_code == s)).map
          (fun r => r.avg_delay_minutes)
        = some (some (wmSum rows s / (dlSum rows s : ℚ)))) := by
  rw [load_flight_delays_find rows s hs]
  constructor <;> intro h <;> simp [delayRecord, h]

/-- The two TX markets of the spec's delay-weighting example:
(delay_pct=10, total_flights=100) and (delay_pct=20, total_flights=300). -/
def txRows : List DelayIn :=
  [{ state_code := "TX", delay_pct := 10, avg_delay_minutes := 30,
     total_flights := 100, delayed_flights := 50, cancelled_flights := 5 },
   { state_code := "TX", delay_pct := 20, avg_delay_minutes := 40,
     total_flights := 300, delayed_flights := 150, cancelled_flights := 10 }]

/-- C1 witness: on the spec's TX example the weighted average is
(10*100+20*300)/(100+300) = 35/2 = 17.5, not the unweighted mean 15. -/
theorem delay_loader_weighted_average_witness :
    ("TX" ∈ txRows.map (fun r => r.state_code))
    ∧ tfSum txRows "TX" ≠ 0
    ∧ ((load_flight_delays txRows).find? (fun r => r.state_code == "TX")).map
        (fun r => r.avg_delay_pct) = some (some ((35 : ℚ) / 2)) := by
  refine ⟨by decide, by decide, ?_⟩
  have h := (delay_loader_weighted_average txRows "TX" (by decide)).1 (by decide)
  have hw : wdSum txRows "TX" = 7000 := by
    show (10 * ((100 : Int) : ℚ) + (20 * ((300 : Int) : ℚ) + 0)) = 7000
    norm_num
  have ht : tfSum txRows "TX" = 400 := by decide
  rw [h, hw, ht]
  norm_num

/-- A one-row delay input whose only state has zero total and delayed
flights. -/
def zeroRows : List DelayIn :=
  [{ state_code := "ZZ", delay_pct := 5, avg_delay_minutes := 10,
     total_flights := 0, delayed_flights := 0, cancelled_flights := 0 }]

/-- C3 counterexample: on a state whose `sum(total_flights)` is 0 the
loader does not resolve `avg_delay_pct` to a defined default; the state's
output cell holds no defined numeric value (pandas NaN, modelled `none`),
in particular it is not 0. -/
theorem delay_zero_denominator_counterexample :
    ((load_flight_delays zeroRows).map (fun r => r.avg_delay_pct.isSome)) = [false]
    ∧ ((load_flight_delays zeroRows).map (fun r => r.avg_delay_pct)) ≠ [some 0] := by
  decide

/-- C3 (amended): when a state's `sum(total_flights)` is 0 (resp.
`sum(delayed_flights)` for `avg_delay_minutes`), the delay loader does
not crash — the state still gets an output row — but the unguarded
division propagates an undefined numeric value (pandas NaN, modelled
`none`) instead of resolving to a defined default. -/
theorem delay_zero_denominator_propagates_nan (rows : List DelayIn) (s : String)
    (hs : s ∈ rows.map (fun r => r.state_code)) :
    (tfSum rows s = 0 →
      ((load_flight_delays rows).find? (fun r => r.state_code == s)).map
        (fun r => r.avg_delay_pct) = some none)
    ∧ (dlSum rows s = 0 →
      ((load_flight_delays rows).find? (fun r => r.state_code == s)).map
        (fun r => r.avg_delay_minutes) = some none) := by
  rw [load_flight_delays_find rows s hs]
  constructor <;> intro h <;> simp [delayRecord, h]

/-- C3 witness: the amended statement at the concrete zero-flight
input. -/
theorem delay_zero_denominator_propagates_nan_witness :
    ("ZZ" ∈ zeroRows.map (fun r => r.state_code))
    ∧ tfSum zeroRows "ZZ" = 0
    ∧ ((load_flight_delays zeroRows).find? (fun r => r.state_code == "ZZ")).map
        (fun r => r.avg_delay_pct) = some none := by
  refine ⟨by decide, by decide, ?_⟩
  exact (delay_zero_denominator_propagates_nan zeroRows "ZZ" (by decide)).1 (by decide)

/-- C8: every output row of the passenger loader satisfies
`holiday_travel_volume = nov_passengers + dec_passengers`, where the two
addends are the per-state sums of the input columns over all rows of that
state. -/
theorem passenger_volume_sum (rows : List PassIn) (r : PassOut)
    (hr : r ∈ load_airport_passengers rows) :
    r.holiday_travel_volume = r.nov_passengers + r.dec_passengers
    ∧ r.nov_passengers
        = ((passGroup rows r.state_code).map (fun x => x.nov_passengers)).sum
    ∧ r.dec_passengers
        = ((passGroup rows r.state_code).map (fun x => x.dec_passengers)).sum := by
  rcases List.mem_map.mp hr with ⟨s, _, hmk⟩
  subst hmk
  exact ⟨rfl, rfl, rfl⟩

/-- The two CA markets of the spec's passenger example. -/
def caRows : List PassIn :=
  [{ state_code := "CA", nov_passengers := 100, dec_passengers := 50 },
   { state_code := "CA", nov_passengers := 200, dec_passengers := 75 }]

/-- C8 witness: the CA example sums to nov=300, dec=125, volume=425. -/
theorem passenger_volume_sum_witness :
    (passRecord caRows "CA" ∈ load_airport_passengers caRows)
    ∧ (passRecord caRows "CA").nov_passengers = 300
    ∧ (passRecord caRows "CA").dec_passengers = 125
    ∧ (passRecord caRows "CA").holiday_travel_volume = 425
    ∧ (passRecord caRows "CA").holiday_travel_volume
        = (passRecord caRows "CA").nov_passengers
          + (passRecord caRows "CA").dec_passengers := by
  refine ⟨by decide, by decide, by decide, by decide, ?_⟩
  exact (passenger_volume_sum caRows (passRecord caRows "CA") (by decide)).1

/-- A 13-token temperature line whose first token has only 3
characters. -/
def badTokenLine : List String :=
  ["abc", "1", "2", "3", "4", "5", "6", "7", "8", "9", "10", "11", "12"]

/-- A temperature line with fewer than 13 tokens. -/
def shortLine : List String := ["0010022020", "40"]

/-- C5 counterexample: a malformed line whose first token is shorter than
10 characters (here 3) does cause an index-out-of-range fault — the
loader aborts with IndexError at `code[5]`. -/
theorem temperature_short_token_counterexample :
    (badTokenLine.headD "").length < 10
    ∧ load_noaa_temperature_data [badTokenLine] = .error .indexError := by
  exact ⟨by decide, by decide⟩

/-- C5 (amended): a line that splits into fewer than 13
whitespace-separated tokens is skipped silently and causes no fault; but
a line with at least 13 tokens whose first token has fewer than 6
characters causes an index-out-of-range fault (`code[5]`) in the
fixed-width code parsing. -/
theorem temperature_line_tolerance (l : List String) :
    (l.length < 13 → parseLine l = .ok none)
    ∧ (13 ≤ l.length → (l.headD "").length < 6 →
        parseLine l = .error .indexError) :=
  ⟨fun h => parseLine_short h, fun h13 hshort => parseLine_short_token h13 hshort⟩

/-- C5 witness: a 2-token line is skipped; the 13-token line with first
token "abc" faults with IndexError. -/
theorem temperature_line_tolerance_witness :
    (shortLine.length < 13 ∧ parseLine shortLine = .ok none)
    ∧ (13 ≤ badTokenLine.length ∧ (badTokenLine.headD "").length < 6
        ∧ parseLine badTokenLine = .error .indexError) :=
  ⟨⟨by decide, (temperature_line_tolerance shortLine).1 (by decide)⟩,
   by decide, by decide,
   (temperature_line_tolerance badTokenLine).2 (by decide) (by decide)⟩

/-- C10: when no line of a readable temperature file splits into at least
13 tokens, every line is skipped, `data_rows` is empty, and the filter
step raises (KeyError on the column-less `pd.DataFrame([])`) instead of
returning an empty or Hawaii-only table. -/
theorem temperature_all_lines_short_raises (lines : List (List String))
    (h : ∀ l ∈ lines, l.length < 13) :
    load_noaa_temperature_data lines = .error .keyError := by
  have hp : parseFile lines = .ok [] := by
    induction lines with
    | nil => rfl
    | cons l ls ih =>
      have hl : parseLine l = .ok none := parseLine_short (h l (List.mem_cons_self l ls))
      have hrest : parseFile ls = .ok [] :=
        ih (fun x hx => h x (List.mem_cons_of_mem _ hx))
      simp only [parseFile, hl, hrest]
  simp only [load_noaa_temperature_data, hp, selectRows, List.isEmpty_nil, if_true]

/-- C10 witness: a file of two short lines raises the KeyError. -/
theorem temperature_all_lines_short_raises_witness :
    (∀ l ∈ [["a", "b"], ([] : List String)], l.length < 13)
    ∧ load_noaa_temperature_data [["a", "b"], []] = .error .keyError :=
  ⟨by decide, temperature_all_lines_short_raises [["a", "b"], []] (by decide)⟩

/-- C4: the fallback to division "01" activates exactly when zero parsed
rows match division "00" inside the configured 5-year window.  With at
least one such row anywhere in the dataset the output is built from the
statewide filter alone (so no division-01 row of any state enters, even
for states lacking a statewide row); with none, the output is built, once
for the whole dataset, from the division-01 filter over the same year
window. -/
theorem temperature_fallback_iff (lines : List (List String)) (rows : List RawRow)
    (hp : parseFile lines = .ok rows) (hne : rows ≠ []) :
    (rows.filter isStatewide ≠ [] →
      load_noaa_temperature_data lines
          = .ok (addHawaii (resolve (aggregate (rows.filter isStatewide))))
        ∧ ∀ r ∈ rows.filter isStatewide, isStatewide r = true)
    ∧ (rows.filter isStatewide = [] →
      load_noaa_temperature_data lines
          = .ok (addHawaii (resolve (aggregate (rows.filter isDivision01))))) := by
  constructor
  · intro h00
    refine ⟨load_noaa_eq lines rows _ hp (selectRows_eq_statewide hne h00), ?_⟩
    intro r hr
    exact (List.mem_filter.mp hr).2
  · intro h00
    exact load_noaa_eq lines rows _ hp (selectRows_eq_fallback hne h00)

/-- A statewide Alabama line for 2020 (dec = 45). -/
def demoLine00 : List String :=
  ["0010022020", "40", "42", "50", "60", "70", "80", "85", "84", "75", "65", "55", "45"]

/-- A division-01 Alabama line for 2020 (dec = 44). -/
def demoLine01 : List String :=
  ["0010122020", "40", "42", "50", "60", "70", "80", "85", "84", "75", "65", "55", "44"]

/-- The parse of `[demoLine00, demoLine01]`. -/
def demoRows : List RawRow :=
  [{ code := "0010022020", state_fips := "001", division := "00",
     year := 2020, nov := 55, dec := 45 },
   { code := "0010122020", state_fips := "001", division := "01",
     year := 2020, nov := 55, dec := 44 }]

/-- C4 witness: a mixed dataset with one statewide row keeps only the
statewide filter. -/
theorem temperature_fallback_iff_witness :
    parseFile [demoLine00, demoLine01] = .ok demoRows
    ∧ demoRows ≠ []
    ∧ demoRows.filter isStatewide ≠ []
    ∧ (load_noaa_temperature_data [demoLine00, demoLine01]
          = .ok (addHawaii (resolve (aggregate (demoRows.filter isStatewide))))
        ∧ ∀ r ∈ demoRows.filter isStatewide, isStatewide r = true) := by
  refine ⟨by decide, by decide, by decide, ?_⟩
  exact (temperature_fallback_iff [demoLine00, demoLine01] demoRows
    (by decide) (by decide)).1 (by decide)

/-- C7: the synthetic Hawaii record (avg_dec_temperature = 73,
avg_nov_temperature = 75) is appended to the loader's output exactly when
the code "HI" is absent from the resolved aggregate; when a real Hawaii
record is present the output is the resolved aggregate unchanged, so the
data-derived record is never overwritten by the constants. -/
theorem hawaii_backfill_iff (lines : List (List String)) (rows sel : List RawRow)
    (hp : parseFile lines = .ok rows) (hs : selectRows rows = .ok sel) :
    ("HI" ∉ (resolve (aggregate sel)).map (fun r => r.state_code) →
      load_noaa_temperature_data lines
        = .ok (resolve (aggregate sel) ++ [hawaiiRow]))
    ∧ ("HI" ∈ (resolve (aggregate sel)).map (fun r => r.state_code) →
      load_noaa_temperature_data lines = .ok (resolve (aggregate sel))) := by
  have hload := load_noaa_eq lines rows sel hp hs
  have hmem : ∀ l : List StateTemp,
      (l.any (fun r => r.state_code == "HI") = true
        ↔ "HI" ∈ l.map (fun r => r.state_code)) := by
    intro l
    simp [List.any_eq_true, List.mem_map]
  constructor
  · intro hni
    rw [hload]
    unfold addHawaii
    rw [if_neg (fun hc => hni ((hmem _).mp hc))]
  · intro hin
    rw [hload]
    unfold addHawaii
    rw [if_pos ((hmem _).mpr hin)]

/-- A statewide Hawaii (FIPS 051) line for 2020, with real data values
nov = 76, dec = 74 — distinct from the synthetic constants. -/
def hiLine : List String :=
  ["0510022020", "70", "71", "72", "73", "74", "75", "76", "77", "78", "79", "76", "74"]

/-- The parse of `[hiLine]`. -/
def hiRow : RawRow :=
  { code := "0510022020", state_fips := "051", division := "00",
    year := 2020, nov := 76, dec := 74 }

/-- C7 witness: with a real Hawaii record in the input, the loader's
output is the resolved aggregate itself — no synthetic append, nothing
overwritten. -/
theorem hawaii_backfill_iff_witness :
    parseFile [hiLine] = .ok [hiRow]
    ∧ selectRows [hiRow] = .ok [hiRow]
    ∧ "HI" ∈ (resolve (aggregate [hiRow])).map (fun r => r.state_code)
    ∧ load_noaa_temperature_data [hiLine] = .ok (resolve (aggregate [hiRow])) := by
  refine ⟨by decide, by decide, by decide, ?_⟩
  exact (hawaii_backfill_iff [hiLine] [hiRow] [hiRow] (by decide) (by decide)).2
    (by decide)

/-- C9: for any temperature input having statewide rows in the window for
a FIPS that resolves in the reference table, the loader's output contains
the row whose December (resp. November) temperature is the arithmetic
mean of exactly that state's matching rows. -/
theorem temperature_statewide_mean (lines : List (List String)) (rows : List RawRow)
    (f k c n : String)
    (hp : parseFile lines = .ok rows)
    (hf : aggGroup (rows.filter isStatewide) f ≠ [])
    (hk : STATE_FIPS.find? (fun e => e.1 == fips2Of f) = some (k, c, n)) :
    ∃ out, load_noaa_temperature_data lines = .ok out
      ∧ { state_code := c, state_name := n,
          avg_dec_temperature :=
            ((aggGroup (rows.filter isStatewide) f).map (fun r => r.dec)).sum
              / ((aggGroup (rows.filter isStatewide) f).length : ℚ),
          avg_nov_temperature :=
            ((aggGroup (rows.filter isStatewide) f).map (fun r => r.nov)).sum
              / ((aggGroup (rows.filter isStatewide) f).length : ℚ) } ∈ out := by
  obtain ⟨r0, hr0⟩ := List.exists_mem_of_ne_nil _ hf
  have hr0f := List.mem_filter.mp hr0
  have hsw : rows.filter isStatewide ≠ [] := by
    intro hh
    rw [aggGroup, hh] at hf
    exact hf rfl
  have hne : rows ≠ [] := by
    intro hh
    rw [hh] at hsw
    exact hsw rfl
  have hload := load_noaa_eq lines rows _ hp (selectRows_eq_statewide hne hsw)
  refine ⟨_, hload, mem_addHawaii ?_⟩
  have hfm : f ∈ ((rows.filter isStatewide).map (fun r => r.state_fips)).dedup := by
    rw [List.mem_dedup]
    exact List.mem_map.mpr ⟨r0, hr0f.1, eq_of_beq hr0f.2⟩
  refine List.mem_filterMap.mpr
    ⟨aggRecord (rows.filter isStatewide) f, List.mem_map_of_mem _ hfm, ?_⟩
  have hk2 : STATE_FIPS.find?
      (fun e => e.1 == fips2Of (aggRecord (rows.filter isStatewide) f).state_fips)
      = some (k, c, n) := hk
  rw [hk2]
  rfl

/-- Two statewide Alabama lines, dec values 45 and 47 and nov value 55 in
both years. -/
def demo9Lines : List (List String) :=
  [["0010022020", "40", "42", "50", "60", "70", "80", "85", "84", "75", "65", "55", "45"],
   ["0010022021", "40", "42", "50", "60", "70", "80", "85", "84", "75", "65", "55", "47"]]

/-- The parse of `demo9Lines`. -/
def demo9Rows : List RawRow :=
  [{ code := "0010022020", state_fips := "001", division := "00",
     year := 2020, nov := 55, dec := 45 },
   { code := "0010022021", state_fips := "001", division := "00",
     year := 2021, nov := 55, dec := 47 }]

/-- C9 witness: the two-year synthetic series for Alabama averages to
dec = (45+47)/2 = 46 and nov = 55. -/
theorem temperature_statewide_mean_witness :
    parseFile demo9Lines = .ok demo9Rows
    ∧ aggGroup (demo9Rows.filter isStatewide) "001" ≠ []
    ∧ STATE_FIPS.find? (fun e => e.1 == fips2Of "001") = some ("01", "AL", "Alabama")
    ∧ (∃ out, load_noaa_temperature_data demo9Lines = .ok out
        ∧ { state_code := "AL", state_name := "Alabama",
            avg_dec_temperature :=
              ((aggGroup (demo9Rows.filter isStatewide) "001").map (fun r => r.dec)).sum
                / ((aggGroup (demo9Rows.filter isStatewide) "001").length : ℚ),
            avg_nov_temperature :=
              ((aggGroup (demo9Rows.filter isStatewide) "001").map (fun r => r.nov)).sum
                / ((aggGroup (demo9Rows.filter isStatewide) "001").length : ℚ) } ∈ out)
    ∧ ((aggGroup (demo9Rows.filter isStatewide) "001").map (fun r => r.dec)).sum
        / ((aggGroup (demo9Rows.filter isStatewide) "001").length : ℚ) = 46 := by
  refine ⟨by decide, by decide, by decide, ?_, ?_⟩
  · exact temperature_statewide_mean demo9Lines demo9Rows "001" "01" "AL" "Alabama"
      (by decide) (by decide) (by decide)
  · have h1 : aggGroup (demo9Rows.filter isStatewide) "001" = demo9Rows := by decide
    rw [h1]
    show (((45 : ℚ)) + (((47 : ℚ)) + 0)) / ((2 : ℕ) : ℚ) = 46
    norm_num

/-- In a list whose keys are distinct, filtering for one key leaves
nothing or exactly one record. -/
theorem filter_key_cases {α : Type} (key : α → String) (l : List α) (s : String)
    (h : (l.map key).Nodup) :
    l.filter (fun x => key x == s) = []
      ∨ ∃ x, key x = s ∧ l.filter (fun x => key x == s) = [x] := by
  induction l with
  | nil => exact Or.inl rfl
  | cons a t ih =>
    rw [List.map_cons, List.nodup_cons] at h
    by_cases hb : (key a == s) = true
    · right
      have hae : key a = s := eq_of_beq hb
      refine ⟨a, hae, ?_⟩
      rw [@List.filter_cons_of_pos _ (fun x => key x == s) a t hb]
      have hnil : t.filter (fun x => key x == s) = [] := by
        rw [List.filter_eq_nil_iff]
        intro x hx hxs
        apply h.1
        have hxe : key x = s := eq_of_beq hxs
        rw [hae, ← hxe]
        exact List.mem_map_of_mem key hx
      rw [hnil]
    · rw [@List.filter_cons_of_neg _ (fun x => key x == s) a t hb]
      exact ih h.2

/-- When passenger keys are distinct, the first merge yields exactly one
row per temperature row, with the same state codes in the same order. -/
theorem mergePassengers_codes (t : List StateTemp) (p : List PassOut)
    (hp : (p.map (fun r => r.state_code)).Nodup) :
    (mergePassengers t p).map (fun r => r.state_code)
      = t.map (fun r => r.state_code) := by
  unfold mergePassengers
  rw [List.map_flatMap]
  induction t with
  | nil => rfl
  | cons tr tl ih =>
    rw [List.flatMap_cons, ih, List.map_cons]
    rcases filter_key_cases (fun r => r.state_code) p tr.state_code hp with hnil | ⟨x, _, hx⟩
    · simp [hnil]
    · simp [hx]

/-- When delay keys are distinct, the second merge also yields exactly
one row per left row, with the same state codes in the same order. -/
theorem mergeDelays_codes (t : List TPRow) (d : List DelayOut)
    (hd : (d.map (fun r => r.state_code)).Nodup) :
    (mergeDelays t d).map (fun r => r.state_code)
      = t.map (fun r => r.state_code) := by
  unfold mergeDelays
  rw [List.map_flatMap]
  induction t with
  | nil => rfl
  | cons tr tl ih =>
    rw [List.flatMap_cons, ih, List.map_cons]
    rcases filter_key_cases (fun r => r.state_code) d tr.state_code hd with hnil | ⟨x, _, hx⟩
    · simp [hnil]
    · simp [hx]

/-- The default fill changes no state code. -/
theorem fillDefaults_codes (l : List CombinedRow) :
    (fillDefaults l).map (fun r => r.state_code)
      = l.map (fun r => r.state_code) := by
  unfold fillDefaults
  rw [List.map_map]
  rfl

/-- The combiner's state codes are exactly the temperature table's. -/
theorem combine_codes (p : List PassOut) (d : List DelayOut) (t : List StateTemp)
    (hp : (p.map (fun r => r.state_code)).Nodup)
    (hd : (d.map (fun r => r.state_code)).Nodup) :
    (combine_datasets p d t).map (fun r => r.state_code)
      = t.map (fun r => r.state_code) := by
  unfold combine_datasets
  rw [fillDefaults_codes, mergeDelays_codes _ _ hd, mergePassengers_codes _ _ hp]

/-- A combined row whose state has no delay match got `avg_delay_pct`
filled to 0 while the four other delay columns stayed NaN. -/
theorem combine_no_delay_match (p : List PassOut) (d : List DelayOut)
    (t : List StateTemp) (r : CombinedRow)
    (hr : r ∈ combine_datasets p d t)
    (hnd : ∀ dr ∈ d, dr.state_code ≠ r.state_code) :
    r.avg_delay_pct = some 0 ∧ r.avg_delay_minutes = none
    ∧ r.total_flights = none ∧ r.delayed_flights = none
    ∧ r.cancelled_flights = none := by
  unfold combine_datasets fillDefaults at hr
  rcases List.mem_map.mp hr with ⟨r0, hr0, hfill⟩
  unfold mergeDelays at hr0
  rcases List.mem_flatMap.mp hr0 with ⟨tr, _, hbr⟩
  by_cases hms : (d.filter (fun dr => dr.state_code == tr.state_code)).isEmpty = true
  · rw [if_pos hms] at hbr
    rcases List.mem_singleton.mp hbr with rfl
    subst hfill
    exact ⟨rfl, rfl, rfl, rfl, rfl⟩
  · rw [if_neg hms] at hbr
    rcases List.mem_map.mp hbr with ⟨dr, hdr, hmk⟩
    exfalso
    apply hnd dr (List.mem_filter.mp hdr).1
    have hdc : dr.state_code = tr.state_code := eq_of_beq (List.mem_filter.mp hdr).2
    subst hmk
    subst hfill
    exact hdc

/-- A combined row whose state has no passenger match got
`holiday_travel_volume` filled to 0 while `nov_passengers` and
`dec_passengers` stayed NaN. -/
theorem combine_no_pass_match (p : List PassOut) (d : List DelayOut)
    (t : List StateTemp) (r : CombinedRow)
    (hr : r ∈ combine_datasets p d t)
    (hnp : ∀ pr ∈ p, pr.state_code ≠ r.state_code) :
    r.holiday_travel_volume = some 0 ∧ r.nov_passengers = none
    ∧ r.dec_passengers = none := by
  unfold combine_datasets fillDefaults at hr
  rcases List.mem_map.mp hr with ⟨r0, hr0, hfill⟩
  unfold mergeDelays at hr0
  rcases List.mem_flatMap.mp hr0 with ⟨tr, htr, hbr⟩
  have hfields : r0.holiday_travel_volume = tr.holiday_travel_volume
      ∧ r0.nov_passengers = tr.nov_passengers
      ∧ r0.dec_passengers = tr.dec_passengers
      ∧ r0.state_code = tr.state_code := by
    by_cases hms : (d.filter (fun dr => dr.state_code == tr.state_code)).isEmpty = true
    · rw [if_pos hms] at hbr
      rcases List.mem_singleton.mp hbr with rfl
      exact ⟨rfl, rfl, rfl, rfl⟩
    · rw [if_neg hms] at hbr
      rcases List.mem_map.mp hbr with ⟨dr, _, hmk⟩
      subst hmk
      exact ⟨rfl, rfl, rfl, rfl⟩
  unfold mergePassengers at htr
  rcases List.mem_flatMap.mp htr with ⟨st, _, hbr2⟩
  by_cases hms2 : (p.filter (fun pr => pr.state_code == st.state_code)).isEmpty = true
  · rw [if_pos hms2] at hbr2
    rcases List.mem_singleton.mp hbr2 with rfl
    subst hfill
    refine ⟨?_, hfields.2.1, hfields.2.2.1⟩
    show some (r0.holiday_travel_volume.getD 0) = some 0
    rw [hfields.1]
    rfl
  · rw [if_neg hms2] at hbr2
    rcases List.mem_map.mp hbr2 with ⟨pr, hpr, hmk2⟩
    exfalso
    apply hnp pr (List.mem_filter.mp hpr).1
    have hpc : pr.state_code = st.state_code := eq_of_beq (List.mem_filter.mp hpr).2
    subst hmk2
    subst hfill
    rw [hpc]
    exact hfields.2.2.2.symm

/-- C2: for loader outputs (tables with distinct state codes), the
combiner's rows carry exactly the temperature table's state codes, once
each; a state absent from the temperature table never appears even when
present in passenger or delay data; and a state present only in the
temperature table appears with holiday_travel_volume = 0 and
avg_delay_pct = 0. -/
theorem combiner_universe (p : List PassOut) (d : List DelayOut) (t : List StateTemp)
    (hp : (p.map (fun r => r.state_code)).Nodup)
    (hd : (d.map (fun r => r.state_code)).Nodup)
    (ht : (t.map (fun r => r.state_code)).Nodup) :
    ((combine_datasets p d t).map (fun r => r.state_code)
        = t.map (fun r => r.state_code))
    ∧ ((combine_datasets p d t).map (fun r => r.state_code)).Nodup
    ∧ (∀ s : String, s ∉ t.map (fun r => r.state_code) →
        s ∉ (combine_datasets p d t).map (fun r => r.state_code))
    ∧ (∀ s : String, s ∈ t.map (fun r => r.state_code) →
        s ∉ p.map (fun r => r.state_code) →
        s ∉ d.map (fun r => r.state_code) →
        ∃ r ∈ combine_datasets p d t, r.state_code = s
          ∧ r.holiday_travel_volume = some 0 ∧ r.avg_delay_pct = some 0) := by
  have hc := combine_codes p d t hp hd
  refine ⟨hc, by rw [hc]; exact ht, ?_, ?_⟩
  · intro s hs
    rw [hc]
    exact hs
  · intro s hst hsp hsd
    have hs : s ∈ (combine_datasets p d t).map (fun r => r.state_code) := by
      rw [hc]; exact hst
    rcases List.mem_map.mp hs with ⟨r, hr, hrc⟩
    have hnp : ∀ pr ∈ p, pr.state_code ≠ r.state_code := by
      intro pr hpr heq
      apply hsp
      rw [← hrc, ← heq]
      exact List.mem_map_of_mem _ hpr
    have hnd : ∀ dr ∈ d, dr.state_code ≠ r.state_code := by
      intro dr hdr heq
      apply hsd
      rw [← hrc, ← heq]
      exact List.mem_map_of_mem _ hdr
    exact ⟨r, hr, hrc, (combine_no_pass_match p d t r hr hnp).1,
      (combine_no_delay_match p d t r hr hnd).1⟩

/-- One-state passenger table for the combiner witnesses. -/
def pDemo : List PassOut :=
  [{ state_code := "CA", holiday_travel_volume := 425,
     nov_passengers := 300, dec_passengers := 125 }]

/-- One-state delay table for the combiner witnesses. -/
def dDemo : List DelayOut :=
  [{ state_code := "CA", avg_delay_pct := some 1, avg_delay_minutes := some 2,
     total_flights := 10, delayed_flights := 5, cancelled_flights := 1 }]

/-- Two-state temperature table: TX has no passenger or delay data. -/
def tDemo : List StateTemp :=
  [{ state_code := "TX", state_name := "Texas",
     avg_dec_temperature := 50, avg_nov_temperature := 55 },
   { state_code := "CA", state_name := "California",
     avg_dec_temperature := 60, avg_nov_temperature := 62 }]

/-- C2 witness: the universe property at a concrete triple where TX has
only temperature data and CA has all three. -/
theorem combiner_universe_witness :
    (pDemo.map (fun r => r.state_code)).Nodup
    ∧ (dDemo.map (fun r => r.state_code)).Nodup
    ∧ (tDemo.map (fun r => r.state_code)).Nodup
    ∧ (((combine_datasets pDemo dDemo tDemo).map (fun r => r.state_code)
          = tDemo.map (fun r => r.state_code))
        ∧ ((combine_datasets pDemo dDemo tDemo).map (fun r => r.state_code)).Nodup
        ∧ (∀ s : String, s ∉ tDemo.map (fun r => r.state_code) →
            s ∉ (combine_datasets pDemo dDemo tDemo).map (fun r => r.state_code))
        ∧ (∀ s : String, s ∈ tDemo.map (fun r => r.state_code) →
            s ∉ pDemo.map (fun r => r.state_code) →
            s ∉ dDemo.map (fun r => r.state_code) →
            ∃ r ∈ combine_datasets pDemo dDemo tDemo, r.state_code = s
              ∧ r.holiday_travel_volume = some 0 ∧ r.avg_delay_pct = some 0)) := by
  refine ⟨by decide, by decide, by decide, ?_⟩
  exact combiner_universe pDemo dDemo tDemo (by decide) (by decide) (by decide)

/-- One-row temperature table whose state has no match anywhere. -/
def txTemp : List StateTemp :=
  [{ state_code := "TX", state_name := "Texas",
     avg_dec_temperature := 50, avg_nov_temperature := 55 }]

/-- C6 counterexample: for a state lacking a delay match the combiner
fills avg_delay_pct with 0 but leaves avg_delay_minutes and the flight
counts as NaN (`none`) — they are not filled with 0. -/
theorem combiner_delay_fields_counterexample :
    ((combine_datasets [] [] txTemp).map
        (fun r => (r.avg_delay_pct, r.avg_delay_minutes, r.total_flights,
          r.delayed_flights, r.cancelled_flights)))
      = [(some 0, none, none, none, none)]
    ∧ ((combine_datasets [] [] txTemp).map (fun r => r.avg_delay_minutes))
        ≠ [some 0] := by
  exact ⟨by decide, by decide⟩

/-- C6 (amended): in the combiner's output, a state lacking a delay match
has avg_delay_pct set to 0, but the other delay fields
(avg_delay_minutes, total_flights, delayed_flights, cancelled_flights)
are left undefined (NaN, modelled `none`) rather than zero-filled. -/
theorem combiner_delay_fill_partial (p : List PassOut) (d : List DelayOut)
    (t : List StateTemp) (r : CombinedRow)
    (hr : r ∈ combine_datasets p d t)
    (hnd : ∀ dr ∈ d, dr.state_code ≠ r.state_code) :
    r.avg_delay_pct = some 0 ∧ r.avg_delay_minutes = none
    ∧ r.total_flights = none ∧ r.delayed_flights = none
    ∧ r.cancelled_flights = none :=
  combine_no_delay_match p d t r hr hnd

/-- The single combined row produced from `txTemp` with empty passenger
and delay tables. -/
def txCombined : CombinedRow :=
  { state_code := "TX", state_name := "Texas",
    avg_dec_temperature := 50, avg_nov_temperature := 55,
    holiday_travel_volume := some 0, nov_passengers := none,
    dec_passengers := none, avg_delay_pct := some 0,
    avg_delay_minutes := none, total_flights := none,
    delayed_flights := none, cancelled_flights := none }

/-- C6 witness: the amended statement at the concrete TX row. -/
theorem combiner_delay_fill_partial_witness :
    txCombined ∈ combine_datasets [] [] txTemp
    ∧ (∀ dr ∈ ([] : List DelayOut), dr.state_code ≠ txCombined.state_code)
    ∧ (txCombined.avg_delay_pct = some 0 ∧ txCombined.avg_delay_minutes = none
        ∧ txCombined.total_flights = none ∧ txCombined.delayed_flights = none
        ∧ txCombined.cancelled_flights = none) := by
  refine ⟨by decide, by decide, ?_⟩
  exact combiner_delay_fill_partial [] [] txTemp txCombined (by decide) (by decide)

end HolidayTravel
